import Mathlib

/-!
Youtube Data Fetcher (`src/ydf.js`): pagination and response normalisation.

A shallow embedding of `src/src/ydf.js` together with theorems about it.

Modelling conventions.

* JavaScript values are the inductive type `JSVal`.  Numbers are restricted to
  integers (HTTP statuses, counts, positions); objects are association lists in
  insertion order.
* A JavaScript string is a Lean `String`; one Lean character stands for one
  string element of the JavaScript string (exact for text of the Basic
  Multilingual Plane, in particular for timestamps, tokens and kind tags).
* An expression that can throw is a function into `Except JSErr`.
* A promise is described by the state it ends in (`Settled`) together with the
  list of requests that were opened on the way (`Async.sent`).
* Platform built-ins that the file calls but does not define
  (`encodeURIComponent`, `JSON.parse`, string conversion, number conversion, the
  lexical `this`, the network) are fields of `Platform`.
-/

namespace Ydf

/-! ## JavaScript values -/

/-- JavaScript values as far as the program handles them. -/
inductive JSVal where
  | undefined
  | null
  | bool (b : Bool)
  | num (n : Int)
  | str (s : String)
  | arr (xs : List JSVal)
  | obj (fields : List (String × JSVal))

/-- Values a JavaScript computation can throw or a promise can be rejected with. -/
inductive JSErr where
  /-- A `TypeError` raised by the engine (property of `undefined`, call of a non-function). -/
  | typeError
  /-- An exception made by `new Error(message)`. -/
  | error (message : String)
  /-- The object `{status, statusText}` made by the transport. -/
  | transport (status : JSVal) (statusText : String)
  /-- An exception raised by a platform built-in. -/
  | builtin (message : String)

instance : Inhabited JSVal := ⟨JSVal.undefined⟩

/-- Own property lookup in an association list, `undefined` when the key is absent. -/
def lookupField : List (String × JSVal) → String → JSVal
  | [], _ => JSVal.undefined
  | (k, v) :: rest, key => if k = key then v else lookupField rest key

/-- Value of `v[key]` for a `v` that is neither `undefined` nor `null`.  The
property names the program reads are no built-in properties of strings,
numbers, booleans or arrays, so on these the result is `undefined`. -/
def JSVal.field (v : JSVal) (key : String) : JSVal :=
  match v with
  | JSVal.obj fields => lookupField fields key
  | _ => JSVal.undefined

/-- Property access `v.key`: a `TypeError` on `undefined` and `null`. -/
def JSVal.get (v : JSVal) (key : String) : Except JSErr JSVal :=
  match v with
  | JSVal.undefined => Except.error JSErr.typeError
  | JSVal.null => Except.error JSErr.typeError
  | w => Except.ok (w.field key)

/-- JavaScript truthiness (`ToBoolean`). -/
def JSVal.truthy : JSVal → Bool
  | JSVal.undefined => false
  | JSVal.null => false
  | JSVal.bool b => b
  | JSVal.num n => n != 0
  | JSVal.str s => s != ""
  | JSVal.arr _ => true
  | JSVal.obj _ => true

/-- The `typeof` operator. -/
def JSVal.typeof : JSVal → String
  | JSVal.undefined => "undefined"
  | JSVal.null => "object"
  | JSVal.bool _ => "boolean"
  | JSVal.num _ => "number"
  | JSVal.str _ => "string"
  | JSVal.arr _ => "object"
  | JSVal.obj _ => "object"

/-- Strict equality `a === b`.  Objects and arrays are compared by identity in
JavaScript; two values of this model never share an identity, so the result is
`false` for them. -/
def JSVal.strictEquals : JSVal → JSVal → Bool
  | JSVal.undefined, JSVal.undefined => true
  | JSVal.null, JSVal.null => true
  | JSVal.bool a, JSVal.bool b => a == b
  | JSVal.num a, JSVal.num b => a == b
  | JSVal.str a, JSVal.str b => a == b
  | _, _ => false

/-- The method `String.prototype.substring(start, end)` on a string: both
indices are clamped to the length and swapped when `start > end`. -/
def substring (s : String) (startIdx endIdx : Nat) : String :=
  let a := min startIdx s.length
  let b := min endIdx s.length
  String.mk ((s.data.drop (min a b)).take (max a b - min a b))

/-- The method `String.prototype.substring(start)` on a string. -/
def substringFrom (s : String) (startIdx : Nat) : String :=
  String.mk (s.data.drop (min startIdx s.length))

/-- Method call `v.substring(start, end)`: only strings have the method. -/
def JSVal.substring (v : JSVal) (startIdx endIdx : Nat) : Except JSErr JSVal :=
  match v with
  | JSVal.str s => Except.ok (JSVal.str (Ydf.substring s startIdx endIdx))
  | _ => Except.error JSErr.typeError

/-- Method call `v.substring(start)`: only strings have the method. -/
def JSVal.substringFrom (v : JSVal) (startIdx : Nat) : Except JSErr JSVal :=
  match v with
  | JSVal.str s => Except.ok (JSVal.str (Ydf.substringFrom s startIdx))
  | _ => Except.error JSErr.typeError

/-- Own keys of an object in insertion order (`Object.keys`). -/
def objectKeys : List (String × JSVal) → List String
  | [] => []
  | (k, _) :: rest => k :: objectKeys rest

/-- Assignment `target[key] = value` on an association list: an existing key
keeps its position, a new key goes to the end. -/
def setField : List (String × JSVal) → String → JSVal → List (String × JSVal)
  | [], key, value => [(key, value)]
  | (k, v) :: rest, key, value =>
      if k = key then (k, value) :: rest else (k, v) :: setField rest key value

/-- The call `Object.assign(target, source)` on association lists. -/
def objectAssign (target : List (String × JSVal)) : List (String × JSVal) → List (String × JSVal)
  | [] => target
  | (k, v) :: rest => objectAssign (setField target k v) rest

/-! ## Records (`YoutubeDataObject`, lines 343-356) -/

/-- The constructor `new YoutubeDataObject(type, attributes)`: an object with the
two properties `type` and `attributes`. -/
def YoutubeDataObject (type : String) (attributes : List (String × JSVal)) : JSVal :=
  JSVal.obj [("type", JSVal.str type), ("attributes", JSVal.obj attributes)]

/-! ## Record normaliser (`accumulateDataFromResponse`, lines 110-154) -/

/-- The `switch (dataType)` of the reducer (lines 112-142): the record built
from one raw item, `undefined` for a data type that is neither `videos` nor
`playlists`. -/
def buildDataObject (dataType : String) (value : JSVal) : Except JSErr JSVal :=
  if dataType = "videos" then do
    let snippet ← value.get "snippet"
    let resourceId ← snippet.get "resourceId"
    let id ← resourceId.get "videoId"
    let title ← snippet.get "title"
    let description ← snippet.get "description"
    let playlistId ← snippet.get "playlistId"
    let position ← snippet.get "position"
    let publishedAt ← snippet.get "publishedAt"
    let creationDate ← publishedAt.substring 0 10
    let thumbnails ← snippet.get "thumbnails"
    let status ← value.get "status"
    let privacyStatus ← status.get "privacyStatus"
    pure (YoutubeDataObject "video"
      [("id", id), ("title", title), ("description", description),
       ("playlistId", playlistId), ("positionInPlaylist", position),
       ("creationDate", creationDate), ("thumbnails", thumbnails),
       ("privacyStatus", privacyStatus)])
  else if dataType = "playlists" then do
    let id ← value.get "id"
    let snippet ← value.get "snippet"
    let title ← snippet.get "title"
    let localized ← snippet.get "localized"
    let description ← localized.get "description"
    let publishedAt ← snippet.get "publishedAt"
    let creationDate ← publishedAt.substring 0 10
    let contentDetails ← value.get "contentDetails"
    let videoCount ← contentDetails.get "itemCount"
    let thumbnails ← snippet.get "thumbnails"
    let status ← value.get "status"
    let privacyStatus ← status.get "privacyStatus"
    pure (YoutubeDataObject "playlist"
      [("id", id), ("title", title), ("description", description),
       ("creationDate", creationDate), ("videoCount", videoCount),
       ("thumbnails", thumbnails), ("privacyStatus", privacyStatus)])
  else
    pure JSVal.undefined

/-- The callback handed to `reduce` (lines 111-153): build the record, then
push it when there is no usable filter or when its `privacyStatus` is the
filter. -/
def accumulateStep (privacyStatus : JSVal) (dataType : String)
    (accumulator : List JSVal) (value : JSVal) : Except JSErr (List JSVal) := do
  let dataObj ← buildDataObject dataType value
  if privacyStatus.truthy && privacyStatus.typeof = "string" then
    let attributes ← dataObj.get "attributes"
    let status ← attributes.get "privacyStatus"
    if status.strictEquals privacyStatus then
      pure (accumulator ++ [dataObj])
    else
      pure accumulator
  else
    pure (accumulator ++ [dataObj])

/-- The method `Array.prototype.reduce(callback, initial)` for a callback that
can throw: left to right, the first exception ends the run. -/
def reduceItems (callback : List JSVal → JSVal → Except JSErr (List JSVal)) :
    List JSVal → List JSVal → Except JSErr (List JSVal)
  | accumulator, [] => Except.ok accumulator
  | accumulator, value :: rest =>
      match callback accumulator value with
      | Except.ok next => reduceItems callback next rest
      | Except.error e => Except.error e

/-- The function `accumulateDataFromResponse` (lines 110-154).  Only arrays have
the method `reduce`. -/
def accumulateDataFromResponse (response privacyStatus : JSVal) (dataType : String) :
    Except JSErr (List JSVal) := do
  let items ← response.get "items"
  match items with
  | JSVal.arr xs => reduceItems (accumulateStep privacyStatus dataType) [] xs
  | _ => Except.error JSErr.typeError

/-! ## Well-formed raw items -/

/-- Whether the value is an object. -/
def JSVal.isObject : JSVal → Bool
  | JSVal.obj _ => true
  | _ => false

/-- Whether the value is a string. -/
def JSVal.isString : JSVal → Bool
  | JSVal.str _ => true
  | _ => false

/-- The text of a string value, empty for other values. -/
def JSVal.text : JSVal → String
  | JSVal.str s => s
  | _ => ""

/-- Well-formed raw playlist item: an object whose `snippet`, `snippet.localized`,
`contentDetails` and `status` are objects and whose `snippet.publishedAt` is a
string.  Every item of the playlist-list resource shape has these properties;
nothing is asked of the other leaves. -/
def wellFormedPlaylistItem (value : JSVal) : Bool :=
  value.isObject && (value.field "snippet").isObject
    && ((value.field "snippet").field "localized").isObject
    && ((value.field "snippet").field "publishedAt").isString
    && (value.field "contentDetails").isObject
    && (value.field "status").isObject

/-- Well-formed raw playlist-item (video) item: an object whose `snippet`,
`snippet.resourceId` and `status` are objects and whose `snippet.publishedAt`
is a string. -/
def wellFormedVideoItem (value : JSVal) : Bool :=
  value.isObject && (value.field "snippet").isObject
    && ((value.field "snippet").field "resourceId").isObject
    && ((value.field "snippet").field "publishedAt").isString
    && (value.field "status").isObject

/-- Well-formedness of a raw item for the data type being accumulated. -/
def wellFormedItem (dataType : String) (value : JSVal) : Bool :=
  if dataType = "videos" then wellFormedVideoItem value
  else if dataType = "playlists" then wellFormedPlaylistItem value
  else false

/-- The raw visibility of an item, `value.status.privacyStatus`. -/
def rawPrivacyStatus (value : JSVal) : JSVal :=
  (value.field "status").field "privacyStatus"

/-- The raw timestamp of an item, `value.snippet.publishedAt`. -/
def rawPublishedAt (value : JSVal) : JSVal :=
  (value.field "snippet").field "publishedAt"

/-- The attribute `record.attributes[name]` of a record. -/
def attributeOf (record : JSVal) (name : String) : JSVal :=
  (record.field "attributes").field name

/-! ## Platform and promises -/

/-- What the network does with a request once it is sent: the `load` event with
the state of the request object, the `error` event, or no event at all. -/
inductive XhrEvent where
  | load (readyState : Nat) (status : Int) (statusText : String) (response : String)
  | error (status : Int) (statusText : String)
  | silent

/-- Built-ins and surroundings the file relies on without defining them. -/
structure Platform where
  /-- The function `encodeURIComponent` on a string. -/
  encodeURIComponent : String → String
  /-- String conversion of an object or an array. -/
  objectToString : JSVal → String
  /-- Number conversion of a string, `none` for `NaN`. -/
  stringToNumber : String → Option Int
  /-- The function `JSON.parse`, which throws on malformed text. -/
  jsonParse : String → Except JSErr JSVal
  /-- The lexical `this` of the arrow functions in `sendRequest`: the `this` of
  the script, which in a browser script is `window`. -/
  thisValue : JSVal
  /-- The network: the event that follows `xhr.open(method, url); xhr.send()`. -/
  network : String → String → XhrEvent

/-- String conversion (`ToString`) as applied by `+` with a string operand. -/
def toStringJS (P : Platform) : JSVal → String
  | JSVal.undefined => "undefined"
  | JSVal.null => "null"
  | JSVal.bool true => "true"
  | JSVal.bool false => "false"
  | JSVal.num n => toString n
  | JSVal.str s => s
  | v => P.objectToString v

/-- Number conversion (`ToNumber`) as applied by `>=` and `<` with a number
operand; `none` stands for `NaN`. -/
def toNumberJS (P : Platform) : JSVal → Option Int
  | JSVal.undefined => none
  | JSVal.null => some 0
  | JSVal.bool true => some 1
  | JSVal.bool false => some 0
  | JSVal.num n => some n
  | JSVal.str s => P.stringToNumber s
  | v => P.stringToNumber (P.objectToString v)

/-- The comparison `x >= bound` on a converted operand; `false` on `NaN`. -/
def numGe (x : Option Int) (bound : Int) : Bool :=
  match x with
  | some n => decide (bound ≤ n)
  | none => false

/-- The comparison `x < bound` on a converted operand; `false` on `NaN`. -/
def numLt (x : Option Int) (bound : Int) : Bool :=
  match x with
  | some n => decide (n < bound)
  | none => false

/-- The state a promise ends in. -/
inductive Settled (α : Type) where
  | resolved (value : α)
  | rejected (reason : JSErr)
  | pending

/-- A request as opened by `xhr.open`, with the parameter mapping it was built from. -/
structure Request where
  method : String
  url : String
  params : JSVal

/-- A promise of the program: the requests sent until it settles, in order, and
the state it ends in. -/
structure Async (α : Type) where
  sent : List Request
  state : Settled α

/-- The call `promise.then(callback)` for a callback that returns a value or throws. -/
def Async.thenValue {α β : Type} (p : Async α) (callback : α → Except JSErr β) : Async β :=
  match p.state with
  | Settled.resolved value =>
      match callback value with
      | Except.ok result => { sent := p.sent, state := Settled.resolved result }
      | Except.error e => { sent := p.sent, state := Settled.rejected e }
  | Settled.rejected reason => { sent := p.sent, state := Settled.rejected reason }
  | Settled.pending => { sent := p.sent, state := Settled.pending }

/-- The call `promise.then(callback)` for a callback that returns a promise. -/
def Async.thenPromise {α β : Type} (p : Async α) (callback : α → Async β) : Async β :=
  match p.state with
  | Settled.resolved value =>
      { sent := p.sent ++ (callback value).sent, state := (callback value).state }
  | Settled.rejected reason => { sent := p.sent, state := Settled.rejected reason }
  | Settled.pending => { sent := p.sent, state := Settled.pending }

/-! ## Transport (`sendRequest`, lines 26-72) -/

/-- The constant `xhr.DONE`. -/
def xhrDone : Nat := 4

/-- The parameter string of lines 38-43: for a truthy object the encoded pairs
joined with `&` (an array has its indices as keys), otherwise the value as
converted by the later concatenation. -/
def buildParamsString (P : Platform) (params : JSVal) : String :=
  if params.truthy && params.typeof = "object" then
    match params with
    | JSVal.obj fields =>
        "&".intercalate ((objectKeys fields).map (fun key =>
          P.encodeURIComponent key ++ "=" ++
            P.encodeURIComponent (toStringJS P (lookupField fields key))))
    | JSVal.arr xs =>
        "&".intercalate ((List.range xs.length).map (fun i =>
          P.encodeURIComponent (toString i) ++ "=" ++
            P.encodeURIComponent (toStringJS P (xs.getD i JSVal.undefined))))
    | other => toStringJS P other
  else
    toStringJS P params

/-- The handler `xhr.onload` (lines 52-63).  The condition reads `this.status`,
not `xhr.status`, and joins the two comparisons with `||`.  An exception inside
the handler leaves the promise pending. -/
def onload (P : Platform) (readyState : Nat) (statusText response : String) :
    Settled JSVal :=
  if readyState = xhrDone then
    match P.thisValue.get "status" with
    | Except.error _ => Settled.pending
    | Except.ok thisStatus =>
        if numGe (toNumberJS P thisStatus) 200 || numLt (toNumberJS P thisStatus) 300 then
          match P.jsonParse response with
          | Except.ok body => Settled.resolved body
          | Except.error _ => Settled.pending
        else
          Settled.rejected (JSErr.transport thisStatus statusText)
  else
    Settled.pending

/-- The handler `xhr.onerror` (lines 66-69). -/
def onerror (P : Platform) (statusText : String) : Settled JSVal :=
  match P.thisValue.get "status" with
  | Except.error _ => Settled.pending
  | Except.ok thisStatus => Settled.rejected (JSErr.transport thisStatus statusText)

/-- The state of the promise after the event `event` on the request object.
The field `status` of a `load` event is `xhr.status`; no handler reads it. -/
def settle (P : Platform) (event : XhrEvent) : Settled JSVal :=
  match event with
  | XhrEvent.load readyState _status statusText response =>
      onload P readyState statusText response
  | XhrEvent.error _status statusText => onerror P statusText
  | XhrEvent.silent => Settled.pending

/-- The function `sendRequest(settings)(otherSettings)` (lines 26-72). -/
def sendRequest (P : Platform) (settings otherSettings : List (String × JSVal)) :
    Async JSVal :=
  let settingsObj := objectAssign (objectAssign [] settings) otherSettings
  let params := lookupField settingsObj "params"
  let method := toStringJS P (lookupField settings "method")
  let url := toStringJS P (lookupField settings "url") ++ "?" ++ buildParamsString P params
  { sent := [{ method := method, url := url, params := params }],
    state := settle P (P.network method url) }

/-- The request function `channelsRequest` (lines 78-81). -/
def channelsRequest (P : Platform) : List (String × JSVal) → Async JSVal :=
  sendRequest P [("method", JSVal.str "GET"),
    ("url", JSVal.str "https://www.googleapis.com/youtube/v3/channels")]

/-- The request function `playlistsRequest` (lines 87-90). -/
def playlistsRequest (P : Platform) : List (String × JSVal) → Async JSVal :=
  sendRequest P [("method", JSVal.str "GET"),
    ("url", JSVal.str "https://www.googleapis.com/youtube/v3/playlists")]

/-- The request function `playlistItemsRequest` (lines 96-99). -/
def playlistItemsRequest (P : Platform) : List (String × JSVal) → Async JSVal :=
  sendRequest P [("method", JSVal.str "GET"),
    ("url", JSVal.str "https://www.googleapis.com/youtube/v3/playlistItems")]

/-! ## Credentials and result pages -/

/-- The shared object `credentials` (line 366) after `new ydf(key, id)` (lines
381-386); a property that was never assigned reads as `undefined`. -/
structure Credentials where
  key : JSVal
  id : JSVal

/-- The class `YoutubeResultsPage` (lines 268-290): the constructor stores its
seven arguments and freezes the object. -/
structure YoutubeResultsPage where
  kind : JSVal
  resultsPerPage : JSVal
  totalResults : JSVal
  prevPageToken : JSVal
  nextPageToken : JSVal
  data : List JSVal
  privacyStatus : JSVal

/-- The conditional `Object.assign(params, { name })` of lines 171-181 and
221-231: the parameter is added when `typeof value !== 'undefined'`. -/
def assignIfDefined (params : List (String × JSVal)) (name : String) (value : JSVal) :
    List (String × JSVal) :=
  if value.typeof ≠ "undefined" then objectAssign params [(name, value)] else params

/-- The parameter mapping built by `fetchPlaylists` (lines 165-181). -/
def playlistsParams (credentials : Credentials) (maxResults pageToken : JSVal) :
    List (String × JSVal) :=
  let params := [("part", JSVal.str "contentDetails, snippet, status"),
    ("channelId", credentials.id), ("key", credentials.key)]
  let params := assignIfDefined params "maxResults" maxResults
  assignIfDefined params "pageToken" pageToken

/-- The parameter mapping built by `fetchVideos` for the playlist-items request
(lines 215-231). -/
def playlistItemsParams (credentials : Credentials) (playlistId maxResults pageToken : JSVal) :
    List (String × JSVal) :=
  let params := [("part", JSVal.str "snippet, status"),
    ("playlistId", playlistId), ("key", credentials.key)]
  let params := assignIfDefined params "maxResults" maxResults
  assignIfDefined params "pageToken" pageToken

/-- The callback that turns a response into a page (lines 186-194 and 236-244). -/
def pageOfResponse (privacyStatus : JSVal) (dataType : String) (response : JSVal) :
    Except JSErr YoutubeResultsPage := do
  let kind ← response.get "kind"
  let pageInfo ← response.get "pageInfo"
  let resultsPerPage ← pageInfo.get "resultsPerPage"
  let totalResults ← pageInfo.get "totalResults"
  let prevPageToken ← response.get "prevPageToken"
  let nextPageToken ← response.get "nextPageToken"
  let data ← accumulateDataFromResponse response privacyStatus dataType
  pure { kind := kind, resultsPerPage := resultsPerPage, totalResults := totalResults,
         prevPageToken := prevPageToken, nextPageToken := nextPageToken, data := data,
         privacyStatus := privacyStatus }

/-! ## Fetch orchestrators (lines 164-246) -/

/-- The function `fetchPlaylists(maxResults, privacyStatus, pageToken)` (lines 164-195). -/
def fetchPlaylists (P : Platform) (credentials : Credentials)
    (maxResults privacyStatus pageToken : JSVal) : Async YoutubeResultsPage :=
  (playlistsRequest P
      [("params", JSVal.obj (playlistsParams credentials maxResults pageToken))]).thenValue
    (pageOfResponse privacyStatus "playlists")

/-- The function `fetchVideos(playlistId, maxResults, privacyStatus, pageToken)`
(lines 205-246): the channel lookup comes first, the playlist-items request is
sent once it resolved. -/
def fetchVideos (P : Platform) (credentials : Credentials)
    (playlistId maxResults privacyStatus pageToken : JSVal) : Async YoutubeResultsPage :=
  (channelsRequest P
      [("params", JSVal.obj [("part", JSVal.str "contentDetails"),
        ("id", credentials.id), ("key", credentials.key)])]).thenPromise
    (fun _response =>
      (playlistItemsRequest P
          [("params", JSVal.obj
            (playlistItemsParams credentials playlistId maxResults pageToken))]).thenValue
        (pageOfResponse privacyStatus "videos"))

/-! ## Pagination navigator (lines 295-334) -/

/-- How a synchronous call ends. -/
inductive Completion (α : Type) where
  | returned (value : α)
  | threw (e : JSErr)

/-- The expression `this.data[0].attributes.playlistId` (lines 304 and 326). -/
def firstPlaylistId (page : YoutubeResultsPage) : Except JSErr JSVal := do
  let attributes ← (page.data.headD JSVal.undefined).get "attributes"
  attributes.get "playlistId"

/-- The body shared by `fetchNextPage` and `fetchPreviousPage` once the token is
truthy (lines 297-308 and 319-330): the `switch` on `this.kind.substring(8)`.
The result `none` is the `undefined` returned when no case matches. -/
def navigate (P : Platform) (credentials : Credentials) (page : YoutubeResultsPage)
    (token : JSVal) : Completion (Option (Async YoutubeResultsPage)) :=
  match page.kind.substringFrom 8 with
  | Except.error e => Completion.threw e
  | Except.ok kind =>
      if kind.strictEquals (JSVal.str "playlistListResponse") then
        Completion.returned
          (some (fetchPlaylists P credentials page.resultsPerPage page.privacyStatus token))
      else if kind.strictEquals (JSVal.str "playlistItemListResponse") then
        match firstPlaylistId page with
        | Except.error e => Completion.threw e
        | Except.ok playlistId =>
            Completion.returned
              (some (fetchVideos P credentials playlistId page.resultsPerPage
                page.privacyStatus token))
      else
        Completion.returned none

/-- The method `fetchNextPage()` (lines 295-312). -/
def fetchNextPage (P : Platform) (credentials : Credentials) (page : YoutubeResultsPage) :
    Completion (Option (Async YoutubeResultsPage)) :=
  if page.nextPageToken.truthy then
    navigate P credentials page page.nextPageToken
  else
    Completion.threw (JSErr.error "Cannot fetch the next results page, no such page!")

/-- The method `fetchPreviousPage()` (lines 317-334). -/
def fetchPreviousPage (P : Platform) (credentials : Credentials) (page : YoutubeResultsPage) :
    Completion (Option (Async YoutubeResultsPage)) :=
  if page.prevPageToken.truthy then
    navigate P credentials page page.prevPageToken
  else
    Completion.threw (JSErr.error "Cannot fetch the previous results page, no such page!")

/-- The requests a navigation call sends: none when it throws or returns `undefined`. -/
def requestsOf (c : Completion (Option (Async YoutubeResultsPage))) : List Request :=
  match c with
  | Completion.returned (some promise) => promise.sent
  | Completion.returned none => []
  | Completion.threw _ => []

/-! ## The class `ydf` (lines 374-489) -/

/-- The constructor `new ydf(key, id)` (lines 381-386) on the empty credentials. -/
def ydfConstructor (key id : JSVal) : Credentials :=
  { key := key, id := id }

/-- The method `playlists(maxResults, privacyStatus)` (lines 421-423): the page
token is not passed, hence `undefined`. -/
def playlists (P : Platform) (credentials : Credentials) (maxResults privacyStatus : JSVal) :
    Async YoutubeResultsPage :=
  fetchPlaylists P credentials maxResults privacyStatus JSVal.undefined

/-- The method `Array.prototype.find(callback)` for a callback that can throw:
the first element the callback accepts, `undefined` when there is none. -/
def findRecord (callback : JSVal → Except JSErr Bool) : List JSVal → Except JSErr JSVal
  | [] => Except.ok JSVal.undefined
  | record :: rest =>
      match callback record with
      | Except.error e => Except.error e
      | Except.ok true => Except.ok record
      | Except.ok false => findRecord callback rest

/-- The callback `playlist => playlist.attributes.title === playlistTitle` (line 436). -/
def titleMatches (playlistTitle : String) (record : JSVal) : Except JSErr Bool := do
  let attributes ← record.get "attributes"
  let title ← attributes.get "title"
  pure (title.strictEquals (JSVal.str playlistTitle))

/-- The message of the error thrown at lines 442 and 485. -/
def noSuchPlaylistMessage (playlistTitle : String) : String :=
  "Cannot fetch videos from \"" ++ playlistTitle ++ "\", no such playlist!"

/-- The callback of `playlist(playlistTitle)` (lines 433-444). -/
def selectPlaylist (playlistTitle : String) (page : YoutubeResultsPage) :
    Except JSErr JSVal := do
  let found ← findRecord (titleMatches playlistTitle) page.data
  if found.truthy then
    pure found
  else
    Except.error (JSErr.error (noSuchPlaylistMessage playlistTitle))

/-- The method `playlist(playlistTitle)` (lines 431-445) for a string title. -/
def playlist (P : Platform) (credentials : Credentials) (playlistTitle : String) :
    Async JSVal :=
  (playlists P credentials (JSVal.num 50) JSVal.undefined).thenValue
    (selectPlaylist playlistTitle)

/-- Whether the value is `undefined`. -/
def JSVal.isUndefined : JSVal → Bool
  | JSVal.undefined => true
  | _ => false

/-! ## Sample surroundings

Concrete platforms, responses and pages on which the statements below are
evaluated. -/

/-- Upper-case hexadecimal digit. -/
def hexDigit (n : Nat) : Char :=
  if n < 10 then Char.ofNat (48 + n) else Char.ofNat (55 + n)

/-- One escaped byte, `%XX`. -/
def percentByte (b : Nat) : List Char :=
  ['%', hexDigit (b / 16), hexDigit (b % 16)]

/-- The UTF-8 bytes of a code point. -/
def utf8Bytes (c : Nat) : List Nat :=
  if c < 128 then [c]
  else if c < 2048 then [192 + c / 64, 128 + c % 64]
  else if c < 65536 then [224 + c / 4096, 128 + (c / 64) % 64, 128 + c % 64]
  else [240 + c / 262144, 128 + (c / 4096) % 64, 128 + (c / 64) % 64, 128 + c % 64]

/-- Sample `encodeURIComponent`: letters, digits and `-_.!~*'()` stay, every
other character becomes the escaped bytes of its UTF-8 form. -/
def sampleEncode (s : String) : String :=
  String.mk (s.data.flatMap (fun c =>
    if c.isAlphanum || "-_.!~*'()".data.contains c then [c]
    else (utf8Bytes c.toNat).flatMap percentByte))

/-- Sample `JSON.parse`: the texts of the table parse to the values next to
them, any other text is rejected. -/
def sampleParse (table : List (String × JSVal)) (text : String) : Except JSErr JSVal :=
  match table with
  | [] => Except.error (JSErr.builtin "SyntaxError")
  | (known, value) :: rest => if known = text then Except.ok value else sampleParse rest text

/-- A browser script: `this` is `window`, whose `status` is the empty string,
which converts to the number 0.  The conversions agree with the built-ins on
the arguments the sample runs reach. -/
def browser (network : String → String → XhrEvent) (table : List (String × JSVal)) :
    Platform :=
  { encodeURIComponent := sampleEncode,
    objectToString := fun _ => "[object Object]",
    stringToNumber := fun s => if s = "" then some 0 else s.toInt?,
    jsonParse := sampleParse table,
    thisValue := JSVal.obj [("status", JSVal.str "")],
    network := network }

/-- Sample credentials, as left by `new ydf('API_KEY', 'CHANNEL')`. -/
def sampleCredentials : Credentials :=
  ydfConstructor (JSVal.str "API_KEY") (JSVal.str "CHANNEL")

/-- A raw playlist item of the playlist-list resource shape. -/
def samplePlaylistItem (id title publishedAt privacy : String) : JSVal :=
  JSVal.obj [("id", JSVal.str id),
    ("snippet", JSVal.obj [("title", JSVal.str title),
      ("publishedAt", JSVal.str publishedAt), ("thumbnails", JSVal.obj []),
      ("localized", JSVal.obj [("description", JSVal.str "d")])]),
    ("contentDetails", JSVal.obj [("itemCount", JSVal.num 3)]),
    ("status", JSVal.obj [("privacyStatus", JSVal.str privacy)])]

/-- A raw item of the playlist-item-list resource shape. -/
def sampleVideoItem (videoId title playlistId publishedAt privacy : String) : JSVal :=
  JSVal.obj [
    ("snippet", JSVal.obj [("resourceId", JSVal.obj [("videoId", JSVal.str videoId)]),
      ("title", JSVal.str title), ("description", JSVal.str "d"),
      ("playlistId", JSVal.str playlistId), ("position", JSVal.num 0),
      ("publishedAt", JSVal.str publishedAt), ("thumbnails", JSVal.obj [])]),
    ("status", JSVal.obj [("privacyStatus", JSVal.str privacy)])]

/-- A playlist-list response with the given page size, next token and items. -/
def samplePlaylistResponse (resultsPerPage : Int) (nextPageToken : JSVal)
    (items : List JSVal) : JSVal :=
  JSVal.obj [("kind", JSVal.str "youtube#playlistListResponse"),
    ("pageInfo", JSVal.obj [("resultsPerPage", JSVal.num resultsPerPage),
      ("totalResults", JSVal.num 2)]),
    ("nextPageToken", nextPageToken),
    ("items", JSVal.arr items)]

/-- The two raw items of the visibility scenario: one public, one private. -/
def sampleMixedItems : List JSVal :=
  [samplePlaylistItem "P1" "A" "2020-01-01T00:00:00Z" "public",
   samplePlaylistItem "P2" "B" "2021-02-03T04:05:06Z" "private"]

/-- A network that answers every request with the same `load` event. -/
def constantNetwork (status : Int) (statusText response : String) :
    String → String → XhrEvent :=
  fun _ _ => XhrEvent.load xhrDone status statusText response

/-- A page of videos of the playlist `playlistId` with a next and a previous token. -/
def sampleVideoPage (playlistId : String) : YoutubeResultsPage :=
  { kind := JSVal.str "youtube#playlistItemListResponse",
    resultsPerPage := JSVal.num 5,
    totalResults := JSVal.num 12,
    prevPageToken := JSVal.str "T1",
    nextPageToken := JSVal.str "T3",
    data := [YoutubeDataObject "video"
      [("id", JSVal.str "V1"), ("title", JSVal.str "A"), ("description", JSVal.str "d"),
       ("playlistId", JSVal.str playlistId), ("positionInPlaylist", JSVal.num 0),
       ("creationDate", JSVal.str "2020-01-01"), ("thumbnails", JSVal.obj []),
       ("privacyStatus", JSVal.str "public")]],
    privacyStatus := JSVal.undefined }

/-- A page of playlists with the given tokens, total and data. -/
def samplePlaylistPage (prevPageToken nextPageToken totalResults : JSVal)
    (data : List JSVal) : YoutubeResultsPage :=
  { kind := JSVal.str "youtube#playlistListResponse",
    resultsPerPage := JSVal.num 1,
    totalResults := totalResults,
    prevPageToken := prevPageToken,
    nextPageToken := nextPageToken,
    data := data,
    privacyStatus := JSVal.str "private" }

/-- The JSON text of `samplePlaylistItem id title publishedAt privacy`. -/
def samplePlaylistItemText (id title publishedAt privacy : String) : String :=
  "\x7b\"id\":\"" ++ id ++ "\",\"snippet\":\x7b\"title\":\"" ++ title
    ++ "\",\"publishedAt\":\"" ++ publishedAt
    ++ "\",\"thumbnails\":\x7b\x7d,\"localized\":\x7b\"description\":\"d\"\x7d\x7d,"
    ++ "\"contentDetails\":\x7b\"itemCount\":3\x7d,\"status\":\x7b\"privacyStatus\":\""
    ++ privacy ++ "\"\x7d\x7d"

/-- The JSON text of `samplePlaylistResponse resultsPerPage (str token) items`,
given the JSON texts of the items. -/
def samplePlaylistResponseText (resultsPerPage : Int) (nextPageToken : String)
    (items : List String) : String :=
  "\x7b\"kind\":\"youtube#playlistListResponse\",\"pageInfo\":\x7b\"resultsPerPage\":"
    ++ toString resultsPerPage ++ ",\"totalResults\":2\x7d,\"nextPageToken\":\""
    ++ nextPageToken ++ "\",\"items\":[" ++ ",".intercalate items ++ "]\x7d"

/-- The JSON texts of `sampleMixedItems`. -/
def sampleMixedItemsText : List String :=
  [samplePlaylistItemText "P1" "A" "2020-01-01T00:00:00Z" "public",
   samplePlaylistItemText "P2" "B" "2021-02-03T04:05:06Z" "private"]

/-- A browser in which every request loads with status 200 and the given
playlist-list response as body. -/
def playlistBrowser (resultsPerPage : Int) (nextPageToken : String)
    (itemTexts : List String) (items : List JSVal) : Platform :=
  browser
    (constantNetwork 200 "OK"
      (samplePlaylistResponseText resultsPerPage nextPageToken itemTexts))
    [(samplePlaylistResponseText resultsPerPage nextPageToken itemTexts,
      samplePlaylistResponse resultsPerPage (JSVal.str nextPageToken) items)]

/-- The record `accumulateDataFromResponse` builds from
`samplePlaylistItem id title (day ++ time) privacy`. -/
def samplePlaylistRecord (id title day privacy : String) : JSVal :=
  YoutubeDataObject "playlist"
    [("id", JSVal.str id), ("title", JSVal.str title), ("description", JSVal.str "d"),
     ("creationDate", JSVal.str day), ("videoCount", JSVal.num 3),
     ("thumbnails", JSVal.obj []), ("privacyStatus", JSVal.str privacy)]

set_option maxRecDepth 20000

/-! ## Lemmas on values -/

theorem get_of_isObject {v : JSVal} (h : v.isObject = true) (key : String) :
    v.get key = Except.ok (v.field key) := by
  cases v <;> simp_all [JSVal.isObject, JSVal.get]

theorem substring_of_isString {v : JSVal} (h : v.isString = true) (a b : Nat) :
    v.substring a b = Except.ok (JSVal.str (substring v.text a b)) := by
  cases v <;> simp_all [JSVal.isString, JSVal.substring, JSVal.text]

theorem strictEquals_str_iff (v : JSVal) (f : String) :
    v.strictEquals (JSVal.str f) = true ↔ v = JSVal.str f := by
  cases v <;> simp [JSVal.strictEquals]

/-- The record of a well-formed playlist item. -/
theorem buildDataObject_playlists {value : JSVal} (h : wellFormedPlaylistItem value = true) :
    buildDataObject "playlists" value = Except.ok (YoutubeDataObject "playlist"
      [("id", value.field "id"),
       ("title", (value.field "snippet").field "title"),
       ("description", ((value.field "snippet").field "localized").field "description"),
       ("creationDate", JSVal.str (substring (rawPublishedAt value).text 0 10)),
       ("videoCount", (value.field "contentDetails").field "itemCount"),
       ("thumbnails", (value.field "snippet").field "thumbnails"),
       ("privacyStatus", rawPrivacyStatus value)]) := by
  simp only [wellFormedPlaylistItem, Bool.and_eq_true] at h
  obtain ⟨⟨⟨⟨⟨h1, h2⟩, h3⟩, h4⟩, h5⟩, h6⟩ := h
  simp [buildDataObject, get_of_isObject h1, get_of_isObject h2, get_of_isObject h3,
    substring_of_isString h4, get_of_isObject h5, get_of_isObject h6, rawPublishedAt,
    rawPrivacyStatus, bind, Except.bind, pure, Except.pure]

/-- The record of a well-formed video item. -/
theorem buildDataObject_videos {value : JSVal} (h : wellFormedVideoItem value = true) :
    buildDataObject "videos" value = Except.ok (YoutubeDataObject "video"
      [("id", ((value.field "snippet").field "resourceId").field "videoId"),
       ("title", (value.field "snippet").field "title"),
       ("description", (value.field "snippet").field "description"),
       ("playlistId", (value.field "snippet").field "playlistId"),
       ("positionInPlaylist", (value.field "snippet").field "position"),
       ("creationDate", JSVal.str (substring (rawPublishedAt value).text 0 10)),
       ("thumbnails", (value.field "snippet").field "thumbnails"),
       ("privacyStatus", rawPrivacyStatus value)]) := by
  simp only [wellFormedVideoItem, Bool.and_eq_true] at h
  obtain ⟨⟨⟨⟨h1, h2⟩, h3⟩, h4⟩, h5⟩ := h
  simp [buildDataObject, get_of_isObject h1, get_of_isObject h2, get_of_isObject h3,
    substring_of_isString h4, get_of_isObject h5, rawPublishedAt,
    rawPrivacyStatus, bind, Except.bind, pure, Except.pure]

/-- A well-formed item yields a record whose attributes can be read; its
`privacyStatus` and `creationDate` come from the raw item. -/
theorem buildDataObject_wellFormed {dataType : String} {value : JSVal}
    (h : wellFormedItem dataType value = true) :
    ∃ record attrs, buildDataObject dataType value = Except.ok record
      ∧ record.get "attributes" = Except.ok (JSVal.obj attrs)
      ∧ (JSVal.obj attrs).get "privacyStatus" = Except.ok (rawPrivacyStatus value)
      ∧ attributeOf record "privacyStatus" = rawPrivacyStatus value
      ∧ attributeOf record "creationDate"
          = JSVal.str (substring (rawPublishedAt value).text 0 10) := by
  unfold wellFormedItem at h
  split at h
  · next hv =>
    subst hv
    refine ⟨_, _, buildDataObject_videos h, rfl, ?_, ?_, ?_⟩ <;>
      simp [JSVal.get, JSVal.field, lookupField, attributeOf, YoutubeDataObject]
  · split at h
    · next hp =>
      subst hp
      refine ⟨_, _, buildDataObject_playlists h, rfl, ?_, ?_, ?_⟩ <;>
        simp [JSVal.get, JSVal.field, lookupField, attributeOf, YoutubeDataObject]
    · cases h

theorem truthy_typeof_str {f : String} (hf : f ≠ "") :
    ((JSVal.str f).truthy && decide ((JSVal.str f).typeof = "string")) = true := by
  simp [JSVal.truthy, JSVal.typeof, hf]

/-- One reducer step on a well-formed item under a non-empty string filter. -/
theorem accumulateStep_filter {dataType f : String} (hf : f ≠ "") {value : JSVal}
    (h : wellFormedItem dataType value = true) (acc : List JSVal) :
    ∃ record, buildDataObject dataType value = Except.ok record
      ∧ attributeOf record "privacyStatus" = rawPrivacyStatus value
      ∧ accumulateStep (JSVal.str f) dataType acc value
          = Except.ok (if (rawPrivacyStatus value).strictEquals (JSVal.str f)
              then acc ++ [record] else acc) := by
  obtain ⟨record, attrs, hb, ha, hp, hq, _⟩ := buildDataObject_wellFormed h
  refine ⟨record, hb, hq, ?_⟩
  simp only [accumulateStep, hb, bind, Except.bind, truthy_typeof_str hf, if_true, ha, hp]
  split <;> rfl

/-- One reducer step on a well-formed item without a filter. -/
theorem accumulateStep_noFilter {dataType : String} {value : JSVal}
    (h : wellFormedItem dataType value = true) (acc : List JSVal) :
    ∃ record, buildDataObject dataType value = Except.ok record
      ∧ accumulateStep JSVal.undefined dataType acc value = Except.ok (acc ++ [record]) := by
  obtain ⟨record, attrs, hb, _⟩ := buildDataObject_wellFormed h
  refine ⟨record, hb, ?_⟩
  simp [accumulateStep, hb, bind, Except.bind, JSVal.truthy, pure, Except.pure]

/-- The whole reduction under a non-empty string filter, from any accumulator. -/
theorem reduceItems_filter {dataType f : String} (hf : f ≠ "") :
    ∀ (items acc : List JSVal), (∀ v ∈ items, wellFormedItem dataType v = true) →
    ∃ out, reduceItems (accumulateStep (JSVal.str f) dataType) acc items = Except.ok (acc ++ out)
      ∧ List.Forall₂ (fun v r => buildDataObject dataType v = Except.ok r)
          (items.filter (fun v => (rawPrivacyStatus v).strictEquals (JSVal.str f))) out
      ∧ ∀ r ∈ out, attributeOf r "privacyStatus" = JSVal.str f := by
  intro items
  induction items with
  | nil =>
    intro acc _
    exact ⟨[], by simp [reduceItems], by simp, by simp⟩
  | cons v vs ih =>
    intro acc hwf
    obtain ⟨record, hb, hq, hstep⟩ := accumulateStep_filter hf (hwf v (by simp)) acc
    by_cases hk : (rawPrivacyStatus v).strictEquals (JSVal.str f) = true
    · obtain ⟨out, hout, hall, hpriv⟩ := ih (acc ++ [record]) (fun w hw => hwf w (by simp [hw]))
      refine ⟨record :: out, ?_, ?_, ?_⟩
      · simp [reduceItems, hstep, hk, hout]
      · simp only [List.filter_cons, hk, if_true]
        exact List.Forall₂.cons hb hall
      · intro r hr
        rcases List.mem_cons.mp hr with h | h
        · rw [h, hq]
          exact (strictEquals_str_iff _ _).mp hk
        · exact hpriv r h
    · obtain ⟨out, hout, hall, hpriv⟩ := ih acc (fun w hw => hwf w (by simp [hw]))
      refine ⟨out, ?_, ?_, hpriv⟩
      · simp [reduceItems, hstep, hk, hout]
      · simpa only [List.filter_cons, hk] using hall

/-- The whole reduction without a filter, from any accumulator. -/
theorem reduceItems_noFilter {dataType : String} :
    ∀ (items acc : List JSVal), (∀ v ∈ items, wellFormedItem dataType v = true) →
    ∃ out, reduceItems (accumulateStep JSVal.undefined dataType) acc items
        = Except.ok (acc ++ out)
      ∧ List.Forall₂ (fun v r => buildDataObject dataType v = Except.ok r) items out := by
  intro items
  induction items with
  | nil =>
    intro acc _
    exact ⟨[], by simp [reduceItems], by simp⟩
  | cons v vs ih =>
    intro acc hwf
    obtain ⟨record, hb, hstep⟩ := accumulateStep_noFilter (hwf v (by simp)) acc
    obtain ⟨out, hout, hall⟩ := ih (acc ++ [record]) (fun w hw => hwf w (by simp [hw]))
    exact ⟨record :: out, by simp [reduceItems, hstep, hout], List.Forall₂.cons hb hall⟩


/-- C1: for a response whose items are all well-formed, a data type among
`playlists` and `videos` and a non-empty string filter `f`,
`accumulateDataFromResponse` returns, in order, exactly the normalised records
of the raw items whose `status.privacyStatus` is the string `f` (strict
equality, which against a string holds only for the very same string): every
returned record has `attributes.privacyStatus = f` and there is one record per
matching raw item. -/
theorem accumulateDataFromResponse_filter (response : JSVal) (items : List JSVal)
    (dataType f : String)
    (hitems : response.get "items" = Except.ok (JSVal.arr items))
    (hdt : dataType = "playlists" ∨ dataType = "videos")
    (hf : f ≠ "")
    (hwf : ∀ v ∈ items, wellFormedItem dataType v = true) :
    ∃ out, accumulateDataFromResponse response (JSVal.str f) dataType = Except.ok out
      ∧ List.Forall₂ (fun v r => buildDataObject dataType v = Except.ok r)
          (items.filter (fun v => (rawPrivacyStatus v).strictEquals (JSVal.str f))) out
      ∧ (∀ r ∈ out, attributeOf r "privacyStatus" = JSVal.str f)
      ∧ out.length
          = (items.filter (fun v => (rawPrivacyStatus v).strictEquals (JSVal.str f))).length
      ∧ (∀ v, (rawPrivacyStatus v).strictEquals (JSVal.str f) = true
            ↔ rawPrivacyStatus v = JSVal.str f) := by
  have _ := hdt
  obtain ⟨out, hout, hall, hpriv⟩ := reduceItems_filter hf items [] hwf
  refine ⟨out, ?_, hall, hpriv, hall.length_eq.symm, fun v => strictEquals_str_iff _ _⟩
  simp only [accumulateDataFromResponse, hitems, bind, Except.bind]
  simpa using hout

/-- C2: for a response whose items are all well-formed and a data type among
`playlists` and `videos`, without a visibility filter (`privacyStatus` is
`undefined`) `accumulateDataFromResponse` returns one record per raw item in
the order of `response.items`: the lengths agree and the i-th record is the
normalisation of the i-th raw item. -/
theorem accumulateDataFromResponse_noFilter (response : JSVal) (items : List JSVal)
    (dataType : String)
    (hitems : response.get "items" = Except.ok (JSVal.arr items))
    (hdt : dataType = "playlists" ∨ dataType = "videos")
    (hwf : ∀ v ∈ items, wellFormedItem dataType v = true) :
    ∃ out, accumulateDataFromResponse response JSVal.undefined dataType = Except.ok out
      ∧ out.length = items.length
      ∧ (∀ (i : Nat) (hi : i < items.length) (ho : i < out.length),
            buildDataObject dataType (items.get ⟨i, hi⟩) = Except.ok (out.get ⟨i, ho⟩))
      ∧ List.Forall₂ (fun v r => buildDataObject dataType v = Except.ok r) items out := by
  have _ := hdt
  obtain ⟨out, hout, hall⟩ := reduceItems_noFilter items [] hwf
  refine ⟨out, ?_, hall.length_eq.symm, ?_, hall⟩
  · simp only [accumulateDataFromResponse, hitems, bind, Except.bind]
    simpa using hout
  · intro i hi ho
    exact List.Forall₂.get hall hi ho

/-- C3: on a page whose `nextPageToken` is `undefined`, `fetchNextPage` throws
the boundary error at once and sends no request: neither `fetchPlaylists` nor
`fetchVideos` is reached. -/
theorem fetchNextPage_absent_token (P : Platform) (credentials : Credentials)
    (page : YoutubeResultsPage) (h : page.nextPageToken = JSVal.undefined) :
    fetchNextPage P credentials page
        = Completion.threw (JSErr.error "Cannot fetch the next results page, no such page!")
      ∧ requestsOf (fetchNextPage P credentials page) = []
      ∧ (∀ promise, fetchNextPage P credentials page ≠ Completion.returned promise) := by
  have hthrow : fetchNextPage P credentials page
      = Completion.threw (JSErr.error "Cannot fetch the next results page, no such page!") := by
    simp [fetchNextPage, h, JSVal.truthy]
  refine ⟨hthrow, ?_, ?_⟩
  · rw [hthrow]; rfl
  · intro promise hp
    rw [hthrow] at hp
    cases hp

theorem substringFrom_playlistList :
    (JSVal.str "youtube#playlistListResponse").substringFrom 8
      = Except.ok (JSVal.str "playlistListResponse") := by
  rfl

theorem substringFrom_playlistItemList :
    (JSVal.str "youtube#playlistItemListResponse").substringFrom 8
      = Except.ok (JSVal.str "playlistItemListResponse") := by
  rfl

/-- C4: on a page whose `nextPageToken` is present (truthy, the test of line
296), `fetchNextPage` is `fetchPlaylists(resultsPerPage, privacyStatus,
nextPageToken)` when the kind is `youtube#playlistListResponse`, and is
`fetchVideos(data[0].attributes.playlistId, resultsPerPage, privacyStatus,
nextPageToken)` when the kind is `youtube#playlistItemListResponse` and `data`
starts with a record.  Page size and filter are those of the page; the page is
a value and is only read. -/
theorem fetchNextPage_routes (P : Platform) (credentials : Credentials)
    (page : YoutubeResultsPage) (htoken : page.nextPageToken.truthy = true) :
    (page.kind = JSVal.str "youtube#playlistListResponse" →
        fetchNextPage P credentials page
          = Completion.returned (some (fetchPlaylists P credentials page.resultsPerPage
              page.privacyStatus page.nextPageToken)))
      ∧ (page.kind = JSVal.str "youtube#playlistItemListResponse" →
          ∀ (type : String) (attributes : List (String × JSVal)) (rest : List JSVal),
            page.data = YoutubeDataObject type attributes :: rest →
            firstPlaylistId page = Except.ok (lookupField attributes "playlistId")
            ∧ fetchNextPage P credentials page
              = Completion.returned (some (fetchVideos P credentials
                  (lookupField attributes "playlistId") page.resultsPerPage
                  page.privacyStatus page.nextPageToken))) := by
  constructor
  · intro hk
    simp [fetchNextPage, htoken, navigate, hk, substringFrom_playlistList, JSVal.strictEquals]
  · intro hk type attributes rest hd
    have hfirst : firstPlaylistId page = Except.ok (lookupField attributes "playlistId") := by
      simp [firstPlaylistId, hd, YoutubeDataObject, JSVal.get, JSVal.field, lookupField,
        bind, Except.bind]
    refine ⟨hfirst, ?_⟩
    simp [fetchNextPage, htoken, navigate, hk, substringFrom_playlistItemList,
      JSVal.strictEquals, hfirst]

/-- C6 as stated fails: two pages of videos that agree on kind, page size,
filter and next token but hold records of different playlists make
`fetchNextPage` send playlist-items requests with different `playlistId`
parameters. -/
theorem fetchNextPage_depends_on_data :
    (sampleVideoPage "PL_A").kind = (sampleVideoPage "PL_B").kind
      ∧ (sampleVideoPage "PL_A").resultsPerPage = (sampleVideoPage "PL_B").resultsPerPage
      ∧ (sampleVideoPage "PL_A").privacyStatus = (sampleVideoPage "PL_B").privacyStatus
      ∧ (sampleVideoPage "PL_A").nextPageToken = (sampleVideoPage "PL_B").nextPageToken
      ∧ (requestsOf (fetchNextPage
            (browser (constantNetwork 200 "OK" "\x7b\x7d") [("\x7b\x7d", JSVal.obj [])])
            sampleCredentials (sampleVideoPage "PL_A"))).map Request.url
          = ["https://www.googleapis.com/youtube/v3/channels?part=contentDetails&id=CHANNEL&key=API_KEY",
             "https://www.googleapis.com/youtube/v3/playlistItems?part=snippet%2C%20status&playlistId=PL_A&key=API_KEY&maxResults=5&pageToken=T3"]
      ∧ (requestsOf (fetchNextPage
            (browser (constantNetwork 200 "OK" "\x7b\x7d") [("\x7b\x7d", JSVal.obj [])])
            sampleCredentials (sampleVideoPage "PL_B"))).map Request.url
          = ["https://www.googleapis.com/youtube/v3/channels?part=contentDetails&id=CHANNEL&key=API_KEY",
             "https://www.googleapis.com/youtube/v3/playlistItems?part=snippet%2C%20status&playlistId=PL_B&key=API_KEY&maxResults=5&pageToken=T3"]
      ∧ requestsOf (fetchNextPage
            (browser (constantNetwork 200 "OK" "\x7b\x7d") [("\x7b\x7d", JSVal.obj [])])
            sampleCredentials (sampleVideoPage "PL_A"))
          ≠ requestsOf (fetchNextPage
            (browser (constantNetwork 200 "OK" "\x7b\x7d") [("\x7b\x7d", JSVal.obj [])])
            sampleCredentials (sampleVideoPage "PL_B")) := by
  refine ⟨rfl, rfl, rfl, rfl, by decide, by decide, ?_⟩
  intro h
  have hurl := congrArg (List.map Request.url) h
  revert hurl
  decide

/-- C6, amended: navigation is a function of kind, page size, filter and token,
and for a page of the playlist-item kind also of
`data[0].attributes.playlistId`.  Two pages that agree on these make
`fetchNextPage` end the same way and send the same requests, whatever their
`totalResults`, their other token and the rest of their data; likewise
`fetchPreviousPage` with `prevPageToken`. -/
theorem navigation_determined (P : Platform) (credentials : Credentials)
    (p q : YoutubeResultsPage)
    (hkind : p.kind = q.kind)
    (hsize : p.resultsPerPage = q.resultsPerPage)
    (hfilter : p.privacyStatus = q.privacyStatus)
    (hfirst : p.kind.substringFrom 8 = Except.ok (JSVal.str "playlistItemListResponse") →
      firstPlaylistId p = firstPlaylistId q) :
    (p.nextPageToken = q.nextPageToken →
        fetchNextPage P credentials p = fetchNextPage P credentials q
        ∧ requestsOf (fetchNextPage P credentials p)
            = requestsOf (fetchNextPage P credentials q))
      ∧ (p.prevPageToken = q.prevPageToken →
        fetchPreviousPage P credentials p = fetchPreviousPage P credentials q
        ∧ requestsOf (fetchPreviousPage P credentials p)
            = requestsOf (fetchPreviousPage P credentials q)) := by
  have hnav : ∀ token, navigate P credentials p token = navigate P credentials q token := by
    intro token
    unfold navigate
    rw [← hkind, ← hsize, ← hfilter]
    cases hsub : p.kind.substringFrom 8 with
    | error e => rfl
    | ok kind =>
      simp only
      by_cases h1 : kind.strictEquals (JSVal.str "playlistListResponse") = true
      · simp [h1]
      · by_cases h2 : kind.strictEquals (JSVal.str "playlistItemListResponse") = true
        · have hk : kind = JSVal.str "playlistItemListResponse" :=
            (strictEquals_str_iff _ _).mp h2
          rw [hk] at hsub
          simp [h1, h2, hfirst hsub]
        · simp [h1, h2]
  constructor
  · intro ht
    have : fetchNextPage P credentials p = fetchNextPage P credentials q := by
      simp only [fetchNextPage, ← ht, hnav]
    exact ⟨this, by rw [this]⟩
  · intro ht
    have : fetchPreviousPage P credentials p = fetchPreviousPage P credentials q := by
      simp only [fetchPreviousPage, ← ht, hnav]
    exact ⟨this, by rw [this]⟩

/-- Witness of C6 (amended): two pages of videos of the same playlist that
differ in `totalResults`, previous token and further data. -/
theorem navigation_determined_witness :
    fetchNextPage (browser (constantNetwork 200 "OK" "[]") [("[]", JSVal.arr [])])
        sampleCredentials (sampleVideoPage "PL_A")
      = fetchNextPage (browser (constantNetwork 200 "OK" "[]") [("[]", JSVal.arr [])])
        sampleCredentials
        { sampleVideoPage "PL_A" with
          totalResults := JSVal.num 99, prevPageToken := JSVal.undefined,
          data := (sampleVideoPage "PL_A").data ++ (sampleVideoPage "PL_B").data }
    ∧ requestsOf (fetchNextPage (browser (constantNetwork 200 "OK" "[]") [("[]", JSVal.arr [])])
        sampleCredentials (sampleVideoPage "PL_A"))
      = requestsOf (fetchNextPage (browser (constantNetwork 200 "OK" "[]") [("[]", JSVal.arr [])])
        sampleCredentials
        { sampleVideoPage "PL_A" with
          totalResults := JSVal.num 99, prevPageToken := JSVal.undefined,
          data := (sampleVideoPage "PL_A").data ++ (sampleVideoPage "PL_B").data }) :=
  (navigation_determined _ sampleCredentials (sampleVideoPage "PL_A")
    { sampleVideoPage "PL_A" with
      totalResults := JSVal.num 99, prevPageToken := JSVal.undefined,
      data := (sampleVideoPage "PL_A").data ++ (sampleVideoPage "PL_B").data }
    rfl rfl rfl (fun _ => rfl)).1 rfl

/-- C7 as stated fails: a supplied `null` page size and a supplied empty page
token are sent, as `maxResults=null` and `pageToken=`. -/
theorem fetchPlaylists_sends_null_and_empty :
    lookupField (playlistsParams sampleCredentials JSVal.null (JSVal.str "")) "maxResults"
        = JSVal.null
      ∧ lookupField (playlistsParams sampleCredentials JSVal.null (JSVal.str "")) "pageToken"
        = JSVal.str ""
      ∧ objectKeys (playlistsParams sampleCredentials JSVal.null (JSVal.str ""))
        = ["part", "channelId", "key", "maxResults", "pageToken"]
      ∧ (fetchPlaylists (browser (constantNetwork 200 "OK" "[]") [("[]", JSVal.arr [])])
          sampleCredentials JSVal.null JSVal.undefined (JSVal.str "")).sent.map Request.url
        = ["https://www.googleapis.com/youtube/v3/playlists?part=contentDetails%2C%20snippet%2C%20status&channelId=CHANNEL&key=API_KEY&maxResults=null&pageToken="] := by
  refine ⟨rfl, rfl, rfl, by decide⟩

/-- C7, amended: the parameter mapping `fetchPlaylists` hands to the transport
is `part = 'contentDetails, snippet, status'`, `channelId` and `key` from the
credentials, then `maxResults` exactly when the argument is not `undefined` and
`pageToken` exactly when the argument is not `undefined`, each with the value
supplied, whatever that value is (`null` and the empty string included); an
`undefined` argument is never sent.  The playlist-items mapping of
`fetchVideos` has `part = 'snippet, status'`, `playlistId` and `key`, followed
by `maxResults` and `pageToken` under the same rule. -/
theorem request_params_exact (P : Platform) (credentials : Credentials)
    (playlistId maxResults privacyStatus pageToken : JSVal) :
    playlistsParams credentials maxResults pageToken
        = [("part", JSVal.str "contentDetails, snippet, status"),
            ("channelId", credentials.id), ("key", credentials.key)]
          ++ (if maxResults.isUndefined then [] else [("maxResults", maxResults)])
          ++ (if pageToken.isUndefined then [] else [("pageToken", pageToken)])
      ∧ (fetchPlaylists P credentials maxResults privacyStatus pageToken).sent.map Request.params
        = [JSVal.obj (playlistsParams credentials maxResults pageToken)]
      ∧ playlistItemsParams credentials playlistId maxResults pageToken
        = [("part", JSVal.str "snippet, status"),
            ("playlistId", playlistId), ("key", credentials.key)]
          ++ (if maxResults.isUndefined then [] else [("maxResults", maxResults)])
          ++ (if pageToken.isUndefined then [] else [("pageToken", pageToken)])
      ∧ (((fetchVideos P credentials playlistId maxResults privacyStatus
              pageToken).sent.drop 1).map Request.params = []
          ∨ ((fetchVideos P credentials playlistId maxResults privacyStatus
              pageToken).sent.drop 1).map Request.params
            = [JSVal.obj (playlistItemsParams credentials playlistId maxResults pageToken)]) := by
  refine ⟨?_, ?_, ?_, ?_⟩
  · unfold playlistsParams
    cases maxResults <;> cases pageToken <;>
      simp [assignIfDefined, JSVal.typeof, JSVal.isUndefined, objectAssign, setField]
  · simp only [fetchPlaylists, playlistsRequest, sendRequest, Async.thenValue]
    split <;> [split; skip; skip] <;> simp [objectAssign, setField, lookupField]
  · unfold playlistItemsParams
    cases maxResults <;> cases pageToken <;>
      simp [assignIfDefined, JSVal.typeof, JSVal.isUndefined, objectAssign, setField]
  · simp only [fetchVideos, channelsRequest, playlistItemsRequest, sendRequest,
      Async.thenPromise, Async.thenValue]
    split
    · right
      split <;> [split; skip; skip] <;> simp [objectAssign, setField, lookupField]
    · left; simp
    · left; simp

theorem bind_eq_ok {α β : Type} {x : Except JSErr α} {f : α → Except JSErr β} {r : β}
    (h : x >>= f = Except.ok r) : ∃ a, x = Except.ok a ∧ f a = Except.ok r := by
  cases x with
  | error e => cases h
  | ok a => exact ⟨a, rfl, h⟩

/-- Whatever the raw item, a record built for `playlists` or `videos` is a
`YoutubeDataObject`. -/
theorem buildDataObject_shape {dataType : String} {value record : JSVal}
    (hdt : dataType = "playlists" ∨ dataType = "videos")
    (h : buildDataObject dataType value = Except.ok record) :
    ∃ type attributes, record = YoutubeDataObject type attributes := by
  rcases hdt with rfl | rfl
  · simp only [buildDataObject, String.reduceEq, if_false, if_true] at h
    repeat (obtain ⟨_, -, h⟩ := bind_eq_ok h)
    cases h
    exact ⟨_, _, rfl⟩
  · simp only [buildDataObject, if_true] at h
    repeat (obtain ⟨_, -, h⟩ := bind_eq_ok h)
    cases h
    exact ⟨_, _, rfl⟩

theorem reduceItems_noFilter_shape {dataType : String}
    (hdt : dataType = "playlists" ∨ dataType = "videos") :
    ∀ (items acc out : List JSVal),
      (∀ r ∈ acc, ∃ type attributes, r = YoutubeDataObject type attributes) →
      reduceItems (accumulateStep JSVal.undefined dataType) acc items = Except.ok out →
      ∀ r ∈ out, ∃ type attributes, r = YoutubeDataObject type attributes := by
  intro items
  induction items with
  | nil =>
    intro acc out hacc h
    simp only [reduceItems] at h
    cases h
    exact hacc
  | cons v vs ih =>
    intro acc out hacc h
    simp only [reduceItems] at h
    cases hstep : accumulateStep JSVal.undefined dataType acc v with
    | error e => rw [hstep] at h; cases h
    | ok next =>
      rw [hstep] at h
      refine ih next out ?_ h
      simp only [accumulateStep, JSVal.truthy, Bool.false_and] at hstep
      obtain ⟨record, hb, hstep⟩ := bind_eq_ok hstep
      simp at hstep
      cases hstep
      intro r hr
      rcases List.mem_append.mp hr with h1 | h1
      · exact hacc r h1
      · rw [List.mem_singleton.mp h1]
        exact buildDataObject_shape hdt hb

/-- Every page that `playlists` resolves to without a filter holds records only. -/
theorem playlists_data_shape {P : Platform} {credentials : Credentials} {maxResults : JSVal}
    {page : YoutubeResultsPage}
    (h : (playlists P credentials maxResults JSVal.undefined).state = Settled.resolved page) :
    ∀ r ∈ page.data, ∃ type attributes, r = YoutubeDataObject type attributes := by
  simp only [playlists, fetchPlaylists, Async.thenValue] at h
  split at h
  · next response hres =>
    split at h
    · next result hpage =>
      simp only [Settled.resolved.injEq] at h
      subst h
      simp only [pageOfResponse] at hpage
      obtain ⟨_, -, hpage⟩ := bind_eq_ok hpage
      obtain ⟨_, -, hpage⟩ := bind_eq_ok hpage
      obtain ⟨_, -, hpage⟩ := bind_eq_ok hpage
      obtain ⟨_, -, hpage⟩ := bind_eq_ok hpage
      obtain ⟨_, -, hpage⟩ := bind_eq_ok hpage
      obtain ⟨_, -, hpage⟩ := bind_eq_ok hpage
      obtain ⟨data, hacc, hpage⟩ := bind_eq_ok hpage
      cases hpage
      simp only [accumulateDataFromResponse] at hacc
      obtain ⟨items, -, hacc⟩ := bind_eq_ok hacc
      cases items with
      | arr xs =>
        exact reduceItems_noFilter_shape (Or.inl rfl) xs [] data (by simp) hacc
      | _ => cases hacc
    · cases h
  · cases h
  · cases h

theorem titleMatches_record (title type : String) (attributes : List (String × JSVal)) :
    titleMatches title (YoutubeDataObject type attributes)
      = Except.ok ((attributeOf (YoutubeDataObject type attributes) "title").strictEquals
          (JSVal.str title)) := by
  rfl

/-- The search of `playlist` on a list of records: either no record has the
title and the result is `undefined`, or the result is the first record that
has it. -/
theorem findRecord_title (title : String) :
    ∀ (data : List JSVal),
      (∀ r ∈ data, ∃ type attributes, r = YoutubeDataObject type attributes) →
      ((∀ r ∈ data, attributeOf r "title" ≠ JSVal.str title)
          ∧ findRecord (titleMatches title) data = Except.ok JSVal.undefined)
        ∨ (∃ pre r post, data = pre ++ r :: post
            ∧ (∀ x ∈ pre, attributeOf x "title" ≠ JSVal.str title)
            ∧ attributeOf r "title" = JSVal.str title
            ∧ r.truthy = true
            ∧ findRecord (titleMatches title) data = Except.ok r) := by
  intro data
  induction data with
  | nil => intro _; left; exact ⟨by simp, rfl⟩
  | cons d ds ih =>
    intro hshape
    obtain ⟨type, attributes, hd⟩ := hshape d (by simp)
    subst hd
    by_cases hm : (attributeOf (YoutubeDataObject type attributes) "title").strictEquals
        (JSVal.str title) = true
    · right
      refine ⟨[], _, ds, rfl, by simp, (strictEquals_str_iff _ _).mp hm, rfl, ?_⟩
      simp [findRecord, titleMatches_record, hm]
    · have hne : attributeOf (YoutubeDataObject type attributes) "title" ≠ JSVal.str title :=
        fun h => hm ((strictEquals_str_iff _ _).mpr h)
      rcases ih (fun r hr => hshape r (by simp [hr])) with
        ⟨hall, hfind⟩ | ⟨pre, r, post, hsplit, hpre, hr, ht, hfind⟩
      · left
        refine ⟨?_, ?_⟩
        · intro r hr
          rcases List.mem_cons.mp hr with h | h
          · rw [h]; exact hne
          · exact hall r h
        · simp [findRecord, titleMatches_record, hm, hfind]
      · right
        refine ⟨YoutubeDataObject type attributes :: pre, r, post, by simp [hsplit], ?_, hr,
          ht, ?_⟩
        · intro x hx
          rcases List.mem_cons.mp hx with h | h
          · rw [h]; exact hne
          · exact hpre x h
        · simp [findRecord, titleMatches_record, hm, hfind]

/-- The first element with a property is unique: two splits of a list at an
element with the property, before which no element has it, are the same split. -/
theorem first_split_unique {α : Type} (p : α → Prop) :
    ∀ (pre1 pre2 : List α) (r1 r2 : α) (post1 post2 : List α),
      pre1 ++ r1 :: post1 = pre2 ++ r2 :: post2 →
      (∀ x ∈ pre1, ¬ p x) → (∀ x ∈ pre2, ¬ p x) → p r1 → p r2 → r1 = r2 := by
  intro pre1
  induction pre1 with
  | nil =>
    intro pre2 r1 r2 post1 post2 h _ h2 hp1 _
    cases pre2 with
    | nil => simp at h; exact h.1
    | cons y ys =>
      simp at h
      exact absurd hp1 (h.1 ▸ h2 y (by simp))
  | cons x xs ih =>
    intro pre2 r1 r2 post1 post2 h h1 h2 hp1 hp2
    cases pre2 with
    | nil =>
      simp at h
      exact absurd hp2 (h.1 ▸ h1 x (by simp))
    | cons y ys =>
      simp at h
      exact ih ys r1 r2 post1 post2 h.2 (fun z hz => h1 z (by simp [hz]))
        (fun z hz => h2 z (by simp [hz])) hp1 hp2

/-- C8: on a successfully fetched playlist page, `playlist(title)` rejects with
the not-found error, whose message contains the title, exactly when no record
of the page has `attributes.title` equal to the title; otherwise it resolves
to the first record of `data` whose `attributes.title` is the title. -/
theorem playlist_by_title (P : Platform) (credentials : Credentials) (title : String)
    (page : YoutubeResultsPage)
    (h : (playlists P credentials (JSVal.num 50) JSVal.undefined).state
          = Settled.resolved page) :
    ((playlist P credentials title).state
          = Settled.rejected (JSErr.error (noSuchPlaylistMessage title))
        ↔ ∀ r ∈ page.data, attributeOf r "title" ≠ JSVal.str title)
      ∧ (∀ pre r post, page.data = pre ++ r :: post →
          (∀ x ∈ pre, attributeOf x "title" ≠ JSVal.str title) →
          attributeOf r "title" = JSVal.str title →
          (playlist P credentials title).state = Settled.resolved r)
      ∧ ((∃ r ∈ page.data, attributeOf r "title" = JSVal.str title) →
          ∃ pre r post, page.data = pre ++ r :: post
            ∧ (∀ x ∈ pre, attributeOf x "title" ≠ JSVal.str title)
            ∧ attributeOf r "title" = JSVal.str title
            ∧ (playlist P credentials title).state = Settled.resolved r)
      ∧ (∃ before after, noSuchPlaylistMessage title = before ++ title ++ after) := by
  have hshape := playlists_data_shape h
  have hstate : (playlist P credentials title).state
      = match selectPlaylist title page with
        | Except.ok r => Settled.resolved r
        | Except.error e => Settled.rejected e := by
    cases hsel : selectPlaylist title page <;>
      simp [playlist, Async.thenValue, h, hsel]
  have hcases := findRecord_title title page.data hshape
  have hfound : ∀ r, r.truthy = true →
      findRecord (titleMatches title) page.data = Except.ok r →
      (playlist P credentials title).state = Settled.resolved r := by
    intro r ht hfind
    rw [hstate]
    simp [selectPlaylist, hfind, bind, Except.bind, ht, pure, Except.pure]
  have hnone : (∀ r ∈ page.data, attributeOf r "title" ≠ JSVal.str title) →
      (playlist P credentials title).state
        = Settled.rejected (JSErr.error (noSuchPlaylistMessage title)) := by
    intro hall
    rcases hcases with ⟨_, hfind⟩ | ⟨pre, r, post, hsplit, _, hr, _, _⟩
    · rw [hstate]
      simp [selectPlaylist, hfind, bind, Except.bind, JSVal.truthy]
    · exact absurd hr (hall r (by simp [hsplit]))
  have hsome : ∀ pre r post, page.data = pre ++ r :: post →
      (∀ x ∈ pre, attributeOf x "title" ≠ JSVal.str title) →
      attributeOf r "title" = JSVal.str title →
      (playlist P credentials title).state = Settled.resolved r := by
    intro pre r post hsplit hpre hr
    rcases hcases with ⟨hall, _⟩ | ⟨pre2, r2, post2, hsplit2, hpre2, hr2, ht2, hfind2⟩
    · exact absurd hr (hall r (by simp [hsplit]))
    · have hsame : r = r2 :=
        first_split_unique (fun x => attributeOf x "title" = JSVal.str title)
          pre pre2 r r2 post post2 (hsplit ▸ hsplit2) hpre hpre2 hr hr2
      rw [hsame]
      exact hfound r2 ht2 hfind2
  refine ⟨⟨?_, hnone⟩, hsome, ?_, ?_⟩
  · intro hrej r hr hattr
    rcases hcases with ⟨hall, _⟩ | ⟨pre2, r2, post2, _, _, _, ht2, hfind2⟩
    · exact hall r hr hattr
    · rw [hfound r2 ht2 hfind2] at hrej
      cases hrej
  · intro hex
    rcases hcases with ⟨hall, _⟩ | ⟨pre2, r2, post2, hsplit2, hpre2, hr2, ht2, hfind2⟩
    · obtain ⟨r, hr, hattr⟩ := hex
      exact absurd hattr (hall r hr)
    · exact ⟨pre2, r2, post2, hsplit2, hpre2, hr2, hfound r2 ht2 hfind2⟩
  · exact ⟨"Cannot fetch videos from \"", "\", no such playlist!", rfl⟩

/-- C9: the record of a well-formed raw playlist item, and likewise of a
well-formed raw video item, has as `attributes.creationDate` the first 10
characters of the item's `snippet.publishedAt`, the whole string when it is
shorter; a timestamp that starts with a 10-character day is cut to that day. -/
theorem creationDate_first_ten (dataType : String) (value : JSVal) (publishedAt : String)
    (hdt : dataType = "playlists" ∨ dataType = "videos")
    (hwf : wellFormedItem dataType value = true)
    (hpub : rawPublishedAt value = JSVal.str publishedAt) :
    ∃ record, buildDataObject dataType value = Except.ok record
      ∧ attributeOf record "creationDate" = JSVal.str (substring publishedAt 0 10)
      ∧ (substring publishedAt 0 10).data = publishedAt.data.take 10
      ∧ (publishedAt.length ≤ 10 → substring publishedAt 0 10 = publishedAt)
      ∧ (∀ day rest : String, day.length = 10 → publishedAt = day ++ rest →
          attributeOf record "creationDate" = JSVal.str day) := by
  have _ := hdt
  obtain ⟨record, attrs, hb, _, _, _, hdate⟩ := buildDataObject_wellFormed hwf
  have htake : (substring publishedAt 0 10).data = publishedAt.data.take 10 := by
    simp only [substring, String.length]
    simp
  have hdate2 : attributeOf record "creationDate" = JSVal.str (substring publishedAt 0 10) := by
    rw [hdate, hpub]
    rfl
  refine ⟨record, hb, hdate2, htake, ?_, ?_⟩
  · intro hlen
    have hdata : (substring publishedAt 0 10).data = publishedAt.data := by
      rw [htake]
      exact List.take_of_length_le hlen
    calc substring publishedAt 0 10 = String.mk (substring publishedAt 0 10).data := rfl
      _ = String.mk publishedAt.data := by rw [hdata]
      _ = publishedAt := rfl
  · intro day rest hday hsplit
    rw [hdate2]
    have hdata : (substring publishedAt 0 10).data = day.data := by
      rw [htake, hsplit, String.data_append]
      have hlen : day.data.length = 10 := hday
      rw [List.take_append_of_le_length (le_of_eq hlen.symm), List.take_of_length_le (le_of_eq hlen)]
    calc JSVal.str (substring publishedAt 0 10)
        = JSVal.str (String.mk (substring publishedAt 0 10).data) := rfl
      _ = JSVal.str (String.mk day.data) := by rw [hdata]
      _ = JSVal.str day := rfl

/-- C5, the code at a failing input: in a browser script a response that loads
with status 404 resolves the promise with the parsed body; whatever the
platform, the state of the promise after a `load` event does not depend on the
HTTP status; and the condition of line 54 holds for every number. -/
theorem sendRequest_ignores_status :
    (playlistsRequest (browser (constantNetwork 404 "Not Found" "\x7b\x7d")
          [("\x7b\x7d", JSVal.obj [])]) [("params", JSVal.obj [])]).state
        = Settled.resolved (JSVal.obj [])
      ∧ (∀ (P : Platform) (readyState : Nat) (status1 status2 : Int)
            (statusText response : String),
          settle P (XhrEvent.load readyState status1 statusText response)
            = settle P (XhrEvent.load readyState status2 statusText response))
      ∧ (∀ (n : Int), (numGe (some n) 200 || numLt (some n) 300) = true) := by
  refine ⟨by rfl, fun _ _ _ _ _ _ => rfl, ?_⟩
  intro n
  simp only [numGe, numLt, Bool.or_eq_true, decide_eq_true_eq]
  omega

/-- C10, the code at a failing input: `fetchPlaylists(50)` sends
`maxResults=50`; the response reports `resultsPerPage: 5`; the page stores 5,
and `fetchNextPage` on it asks for `maxResults=5`. -/
theorem fetchPlaylists_stores_reported_size :
    (fetchPlaylists (playlistBrowser 5 "T2" [] []) sampleCredentials (JSVal.num 50)
          JSVal.undefined JSVal.undefined).sent.map Request.url
        = ["https://www.googleapis.com/youtube/v3/playlists?part=contentDetails%2C%20snippet%2C%20status&channelId=CHANNEL&key=API_KEY&maxResults=50"]
      ∧ (fetchPlaylists (playlistBrowser 5 "T2" [] []) sampleCredentials (JSVal.num 50)
          JSVal.undefined JSVal.undefined).state
        = Settled.resolved
            { kind := JSVal.str "youtube#playlistListResponse",
              resultsPerPage := JSVal.num 5,
              totalResults := JSVal.num 2,
              prevPageToken := JSVal.undefined,
              nextPageToken := JSVal.str "T2",
              data := [],
              privacyStatus := JSVal.undefined }
      ∧ (requestsOf (fetchNextPage (playlistBrowser 5 "T2" [] []) sampleCredentials
            { kind := JSVal.str "youtube#playlistListResponse",
              resultsPerPage := JSVal.num 5,
              totalResults := JSVal.num 2,
              prevPageToken := JSVal.undefined,
              nextPageToken := JSVal.str "T2",
              data := [],
              privacyStatus := JSVal.undefined })).map Request.url
        = ["https://www.googleapis.com/youtube/v3/playlists?part=contentDetails%2C%20snippet%2C%20status&channelId=CHANNEL&key=API_KEY&maxResults=5&pageToken=T2"] := by
  refine ⟨by decide, by rfl, by decide⟩

/-- Witness of C1: the filter `'private'` on a response with one public and one
private playlist item keeps exactly the record of the private one. -/
theorem accumulateDataFromResponse_filter_witness :
    (∀ v ∈ sampleMixedItems, wellFormedItem "playlists" v = true)
      ∧ accumulateDataFromResponse (samplePlaylistResponse 2 JSVal.undefined sampleMixedItems)
          (JSVal.str "private") "playlists"
        = Except.ok [samplePlaylistRecord "P2" "B" "2021-02-03" "private"]
      ∧ ∃ out, accumulateDataFromResponse
            (samplePlaylistResponse 2 JSVal.undefined sampleMixedItems)
            (JSVal.str "private") "playlists" = Except.ok out
          ∧ List.Forall₂ (fun v r => buildDataObject "playlists" v = Except.ok r)
              (sampleMixedItems.filter
                (fun v => (rawPrivacyStatus v).strictEquals (JSVal.str "private"))) out
          ∧ (∀ r ∈ out, attributeOf r "privacyStatus" = JSVal.str "private")
          ∧ out.length = (sampleMixedItems.filter
                (fun v => (rawPrivacyStatus v).strictEquals (JSVal.str "private"))).length
          ∧ (∀ v, (rawPrivacyStatus v).strictEquals (JSVal.str "private") = true
                ↔ rawPrivacyStatus v = JSVal.str "private") :=
  ⟨by decide, by rfl,
    accumulateDataFromResponse_filter
      (samplePlaylistResponse 2 JSVal.undefined sampleMixedItems) sampleMixedItems
      "playlists" "private" rfl (Or.inl rfl) (by decide) (by decide)⟩

/-- Witness of C2: without a filter both sample items are kept, in order. -/
theorem accumulateDataFromResponse_noFilter_witness :
    (∀ v ∈ sampleMixedItems, wellFormedItem "playlists" v = true)
      ∧ accumulateDataFromResponse (samplePlaylistResponse 2 JSVal.undefined sampleMixedItems)
          JSVal.undefined "playlists"
        = Except.ok [samplePlaylistRecord "P1" "A" "2020-01-01" "public",
            samplePlaylistRecord "P2" "B" "2021-02-03" "private"]
      ∧ ∃ out, accumulateDataFromResponse
            (samplePlaylistResponse 2 JSVal.undefined sampleMixedItems)
            JSVal.undefined "playlists" = Except.ok out
          ∧ out.length = sampleMixedItems.length
          ∧ (∀ (i : Nat) (hi : i < sampleMixedItems.length) (ho : i < out.length),
                buildDataObject "playlists" (sampleMixedItems.get ⟨i, hi⟩)
                  = Except.ok (out.get ⟨i, ho⟩))
          ∧ List.Forall₂ (fun v r => buildDataObject "playlists" v = Except.ok r)
              sampleMixedItems out :=
  ⟨by decide, by rfl,
    accumulateDataFromResponse_noFilter
      (samplePlaylistResponse 2 JSVal.undefined sampleMixedItems) sampleMixedItems
      "playlists" rfl (Or.inl rfl) (by decide)⟩

/-- Witness of C3: a last page of playlists. -/
theorem fetchNextPage_absent_token_witness :
    (samplePlaylistPage (JSVal.str "T1") JSVal.undefined (JSVal.num 2) []).nextPageToken
        = JSVal.undefined
      ∧ fetchNextPage (playlistBrowser 1 "T2" [] []) sampleCredentials
          (samplePlaylistPage (JSVal.str "T1") JSVal.undefined (JSVal.num 2) [])
        = Completion.threw (JSErr.error "Cannot fetch the next results page, no such page!")
      ∧ requestsOf (fetchNextPage (playlistBrowser 1 "T2" [] []) sampleCredentials
          (samplePlaylistPage (JSVal.str "T1") JSVal.undefined (JSVal.num 2) [])) = [] :=
  ⟨rfl,
    (fetchNextPage_absent_token (playlistBrowser 1 "T2" [] []) sampleCredentials
      (samplePlaylistPage (JSVal.str "T1") JSVal.undefined (JSVal.num 2) []) rfl).1,
    (fetchNextPage_absent_token (playlistBrowser 1 "T2" [] []) sampleCredentials
      (samplePlaylistPage (JSVal.str "T1") JSVal.undefined (JSVal.num 2) []) rfl).2.1⟩

/-- Witness of C4: a page of playlists and a page of videos, both with a next token. -/
theorem fetchNextPage_routes_witness :
    (samplePlaylistPage JSVal.undefined (JSVal.str "T2") (JSVal.num 2) []).nextPageToken.truthy
        = true
      ∧ fetchNextPage (playlistBrowser 1 "T3" [] []) sampleCredentials
          (samplePlaylistPage JSVal.undefined (JSVal.str "T2") (JSVal.num 2) [])
        = Completion.returned (some (fetchPlaylists (playlistBrowser 1 "T3" [] [])
            sampleCredentials (JSVal.num 1) (JSVal.str "private") (JSVal.str "T2")))
      ∧ (sampleVideoPage "PL_A").nextPageToken.truthy = true
      ∧ fetchNextPage (playlistBrowser 1 "T3" [] []) sampleCredentials (sampleVideoPage "PL_A")
        = Completion.returned (some (fetchVideos (playlistBrowser 1 "T3" [] [])
            sampleCredentials (JSVal.str "PL_A") (JSVal.num 5) JSVal.undefined
            (JSVal.str "T3"))) :=
  ⟨rfl,
    (fetchNextPage_routes (playlistBrowser 1 "T3" [] []) sampleCredentials
      (samplePlaylistPage JSVal.undefined (JSVal.str "T2") (JSVal.num 2) []) rfl).1 rfl,
    rfl,
    ((fetchNextPage_routes (playlistBrowser 1 "T3" [] []) sampleCredentials
      (sampleVideoPage "PL_A") rfl).2 rfl _ _ _ rfl).2⟩

/-- Witness of C9: the timestamp `2020-01-01T00:00:00Z` is cut to `2020-01-01`. -/
theorem creationDate_first_ten_witness :
    wellFormedItem "playlists"
        (samplePlaylistItem "P1" "A" "2020-01-01T00:00:00Z" "public") = true
      ∧ buildDataObject "playlists" (samplePlaylistItem "P1" "A" "2020-01-01T00:00:00Z" "public")
        = Except.ok (samplePlaylistRecord "P1" "A" "2020-01-01" "public")
      ∧ ∃ record, buildDataObject "playlists"
            (samplePlaylistItem "P1" "A" "2020-01-01T00:00:00Z" "public") = Except.ok record
          ∧ attributeOf record "creationDate"
            = JSVal.str (substring "2020-01-01T00:00:00Z" 0 10)
          ∧ (substring "2020-01-01T00:00:00Z" 0 10).data
            = "2020-01-01T00:00:00Z".data.take 10
          ∧ ("2020-01-01T00:00:00Z".length ≤ 10
              → substring "2020-01-01T00:00:00Z" 0 10 = "2020-01-01T00:00:00Z")
          ∧ (∀ day rest : String, day.length = 10 → "2020-01-01T00:00:00Z" = day ++ rest →
              attributeOf record "creationDate" = JSVal.str day) :=
  ⟨by decide, by rfl,
    creationDate_first_ten "playlists"
      (samplePlaylistItem "P1" "A" "2020-01-01T00:00:00Z" "public") "2020-01-01T00:00:00Z"
      (Or.inl rfl) (by decide) rfl⟩

/-- Witness of C8: on the two sample playlists, the title `B` resolves to the
second record and the title `MissingTitle` is rejected with the not-found
error. -/
theorem playlist_by_title_witness :
    (playlists (playlistBrowser 2 "T2" sampleMixedItemsText sampleMixedItems)
          sampleCredentials (JSVal.num 50) JSVal.undefined).state
        = Settled.resolved
            { kind := JSVal.str "youtube#playlistListResponse",
              resultsPerPage := JSVal.num 2,
              totalResults := JSVal.num 2,
              prevPageToken := JSVal.undefined,
              nextPageToken := JSVal.str "T2",
              data := [samplePlaylistRecord "P1" "A" "2020-01-01" "public",
                samplePlaylistRecord "P2" "B" "2021-02-03" "private"],
              privacyStatus := JSVal.undefined }
      ∧ (playlist (playlistBrowser 2 "T2" sampleMixedItemsText sampleMixedItems)
          sampleCredentials "B").state
        = Settled.resolved (samplePlaylistRecord "P2" "B" "2021-02-03" "private")
      ∧ (playlist (playlistBrowser 2 "T2" sampleMixedItemsText sampleMixedItems)
          sampleCredentials "MissingTitle").state
        = Settled.rejected
            (JSErr.error "Cannot fetch videos from \"MissingTitle\", no such playlist!") :=
  ⟨by rfl,
    (playlist_by_title (playlistBrowser 2 "T2" sampleMixedItemsText sampleMixedItems)
      sampleCredentials "B" _ (by rfl)).2.1
      [samplePlaylistRecord "P1" "A" "2020-01-01" "public"]
      (samplePlaylistRecord "P2" "B" "2021-02-03" "private") [] rfl
      (by simp [samplePlaylistRecord, attributeOf, YoutubeDataObject, JSVal.field, lookupField])
      rfl,
    (playlist_by_title (playlistBrowser 2 "T2" sampleMixedItemsText sampleMixedItems)
      sampleCredentials "MissingTitle" _ (by rfl)).1.mpr
      (by simp [samplePlaylistRecord, attributeOf, YoutubeDataObject, JSVal.field,
        lookupField])⟩

end Ydf
